import Mathlib

/-!
Shallow embedding of the storefront identity and wishlist-merge subsystem
of the wishlist app: the proxy-request authenticator, the token service,
the identity resolver, the session manager and the wishlist routes
(add item, delete item, migrate), together with theorems checking the
specified properties against this embedding.

Conventions of the embedding:
  time is passed explicitly in seconds (the JS code reads Date.now);
  process environment entries are passed as Option String;
  the database behind the Prisma client is a record of row lists;
  generated row ids come from an explicit counter;
  cryptographic primitives (HMAC-SHA256, JWT/HS256 signing) are modelled
  as ideal: a digest is represented by the pair of key and message, and a
  signature by the signing secret, so that equality of digests coincides
  with equality of inputs (collision freedom) and a token verifies
  exactly under the secret it was signed with.
-/

namespace WishlistApp

/- ===== JS string helpers (UTF-16 code units modelled as Char lists) ===== -/

/-- Models the JS test `s.startsWith(pre)`. -/
def jsStartsWith (s pre : String) : Bool :=
  decide (s.data.take pre.data.length = pre.data)

/-- Models the JS call `s.substring(n)`. -/
def jsSubstringFrom (s : String) (n : Nat) : String :=
  ⟨s.data.drop n⟩

/-- Replace the first occurrence of `pat` in a character list, removing it;
models the JS call `s.replace(pat, "")`, which replaces only the first
occurrence. -/
def listReplaceFirst (pat : List Char) : List Char → List Char
  | [] => []
  | c :: rest =>
    if (c :: rest).take pat.length = pat then (c :: rest).drop pat.length
    else c :: listReplaceFirst pat rest

/-- Models the JS call `s.replace(pat, "")`. -/
def jsReplaceFirst (s pat : String) : String :=
  ⟨listReplaceFirst pat.data s.data⟩

/-- Models the JS falsy test `!x` on an optional string: absent and empty
strings are falsy. -/
def falsyStr : Option String → Bool
  | none => true
  | some s => decide (s = "")

/-- Models the JS expression `a || b` on optional strings, where an empty
string is falsy. -/
def orFalsy (a b : Option String) : Option String :=
  match a with
  | some s => if s = "" then b else some s
  | none => b

/-- Models the JS conversion `BigInt(s)` for the decimal strings that occur
in this subsystem; non-numeric input makes `BigInt` throw, modelled as
`none`.  All call sites guard the argument against the falsy empty string
first, so the `BigInt("")` edge case is unreachable here. -/
def parseBigInt (s : String) : Option Nat :=
  if s.data ≠ [] ∧ s.data.all (fun c => decide ('0' ≤ c ∧ c ≤ '9')) then
    some (s.data.foldl (fun n c => n * 10 + (c.toNat - 48)) 0)
  else none

/- ===== IdentityResolver: parseCustomerId (src/web/auth/proxy-auth.js) ===== -/

/-- Result of `parseCustomerId`: the guest/registered classification. -/
structure ParsedCustomer where
  isGuest : Bool
  customerId : Option String
deriving DecidableEq

/-- Embedding of `parseCustomerId(customerId)`: the JS guard `!customerId`
is true for an absent value and for the empty string; otherwise identifiers
with the `guest_` prefix classify as guests with the prefix stripped, and
everything else as a registered customer. -/
def parseCustomerId : Option String → ParsedCustomer
  | none => ⟨true, none⟩
  | some cid =>
    if cid = "" then ⟨true, none⟩
    else if jsStartsWith cid "guest_" then ⟨true, some (jsSubstringFrom cid 6)⟩
    else ⟨false, some cid⟩

/- ===== TokenService: JWT model (src/web/auth/proxy-auth.js) ===== -/

/-- The claims payload built by `generateStorefrontToken`. -/
structure JwtPayload where
  shop : String
  customerId : Option String
  type : String
  iat : Nat
  exp : Nat
deriving DecidableEq

/-- Ideal model of a signed JWT: the signature is forgeable only with the
signing secret, so we record the secret the token was signed under. -/
structure Jwt where
  payload : JwtPayload
  signedWith : String
deriving DecidableEq

/-- Models `jwt.sign(payload, secret)` with algorithm HS256. -/
def jwtSign (payload : JwtPayload) (secret : String) : Jwt :=
  ⟨payload, secret⟩

/-- Models `jwt.verify(token, secret)`: the jsonwebtoken library rejects a
token whose signature does not match and throws TokenExpiredError when the
clock timestamp is at or past `exp`; both failure modes are surfaced by the
caller as `null`, modelled as `none`. -/
def jwtVerify (token : Jwt) (secret : String) (now : Nat) : Option JwtPayload :=
  if token.signedWith = secret ∧ now < token.payload.exp then some token.payload
  else none

/-- The default JWT secret hardcoded in proxy-auth.js. -/
def defaultJwtSecret : String := "your-jwt-secret-change-in-production"

/-- Embedding of `const JWT_SECRET = process.env.JWT_SECRET || default`:
an absent or empty environment entry silently falls back to the hardcoded
development secret. -/
def jwtSecret (env : Option String) : String :=
  match env with
  | none => defaultJwtSecret
  | some s => if s = "" then defaultJwtSecret else s

/-- Embedding of `generateStorefrontToken(shop, customerId, expiresIn)`;
`now` is the current time in seconds (`Date.now() / 1000`).  The JS default
for `expiresIn` is 3600; call sites pass it explicitly here. -/
def generateStorefrontToken (env : Option String) (shop : String)
    (customerId : Option String) (expiresIn : Nat) (now : Nat) : Jwt :=
  jwtSign ⟨shop, customerId, "storefront", now, now + expiresIn⟩ (jwtSecret env)

/-- Embedding of `verifyStorefrontToken(token)`: returns the decoded payload
or `none` when verification fails. -/
def verifyStorefrontToken (env : Option String) (token : Jwt) (now : Nat) :
    Option JwtPayload :=
  jwtVerify token (jwtSecret env) now

/-- Embedding of `generateGuestToken(shop, guestId)`: a storefront token for
subject `guest_<id>` with a 86400 second lifetime. -/
def generateGuestToken (env : Option String) (shop guestId : String) (now : Nat) : Jwt :=
  generateStorefrontToken env shop (some ("guest_" ++ guestId)) 86400 now

/- ===== RequestAuthenticator (src/web/auth/proxy-auth.js) ===== -/

/-- Byte strings as they occur after base64-decoding a signature header:
either the 32-byte HMAC-SHA256 digest of a key and message (ideal crypto:
distinct inputs give distinct digests) or some other byte sequence. -/
inductive ByteString where
  | mac (key : String) (message : String) : ByteString
  | raw (bytes : List Nat) : ByteString
deriving DecidableEq

/-- Byte length of a decoded byte string; every HMAC-SHA256 digest has 32
bytes. -/
def byteLength : ByteString → Nat
  | .mac _ _ => 32
  | .raw bs => bs.length

/-- Ideal model of `crypto.createHmac("sha256", key).update(msg).digest()`. -/
def hmacSha256 (key message : String) : ByteString :=
  .mac key message

/-- Models `crypto.timingSafeEqual(a, b)`: throws a RangeError when the two
buffers have different byte lengths, otherwise compares them. -/
def timingSafeEqual (a b : ByteString) : Except Unit Bool :=
  if byteLength a = byteLength b then .ok (decide (a = b)) else .error ()

/-- An inbound proxy request as seen by the auth middleware: the decoded
`x-shopify-hmac-sha256` header (absent when not sent), the raw body bytes,
and the three places a shop domain may come from. -/
structure ProxyRequest where
  hmacHeader : Option ByteString
  rawBody : String
  shopHeader : Option String
  shopQuery : Option String
  shopBody : Option String

/-- Embedding of `verifyAppProxyHMAC(req, shopifyApiSecret)`: `false` for a
missing header, otherwise the constant-time comparison of the claimed and
expected digests; the comparison itself can throw (`Except.error`). -/
def verifyAppProxyHMAC (req : ProxyRequest) (shopifyApiSecret : String) :
    Except Unit Bool :=
  match req.hmacHeader with
  | none => .ok false
  | some claimed => timingSafeEqual claimed (hmacSha256 shopifyApiSecret req.rawBody)

/-- Outcome of an Express middleware: an early response, or control passed
to the next handler with the extracted shop attached to the request. -/
inductive MiddlewareOut where
  | respond (status : Nat) (error : String) : MiddlewareOut
  | next (shop : String) : MiddlewareOut
deriving DecidableEq

/-- Embedding of the `verifyAppProxyRequest` middleware.  A missing or empty
`SHOPIFY_API_SECRET` yields the 500 configuration response.  An exception
escaping `verifyAppProxyHMAC` (thrown by `crypto.timingSafeEqual` on a
length mismatch) is not caught by the middleware, so Express answers with
its default 500 error response. -/
def verifyAppProxyRequest (envShopifySecret : Option String) (req : ProxyRequest) :
    MiddlewareOut :=
  match envShopifySecret with
  | none => .respond 500 "Server configuration error"
  | some secret =>
    if secret = "" then .respond 500 "Server configuration error"
    else
      match verifyAppProxyHMAC req secret with
      | .error _ => .respond 500 "Internal Server Error"
      | .ok false => .respond 401 "Unauthorized"
      | .ok true =>
        match orFalsy req.shopHeader (orFalsy req.shopQuery req.shopBody) with
        | none => .respond 400 "Shop domain required"
        | some shop =>
          if shop = "" then .respond 400 "Shop domain required"
          else .next shop

/- ===== Data model (prisma schema, src/unnamed/part_001) ===== -/

/-- A row of the Shop table (fields used by this subsystem). -/
structure Shop where
  id : Nat
  domain : String
deriving DecidableEq

/-- A row of the Customer table (fields used by this subsystem). -/
structure Customer where
  id : Nat
  shopId : Nat
  shopCustomerId : Nat
deriving DecidableEq

/-- A row of the Wishlist table; `customerId = none` marks a guest
wishlist. -/
structure Wishlist where
  id : Nat
  shopId : Nat
  customerId : Option Nat
  shareUUID : String
deriving DecidableEq

/-- A row of the WishlistItem table. -/
structure WishlistItem where
  id : Nat
  wishlistId : Nat
  productId : Nat
  variantId : Nat
  handle : String
deriving DecidableEq

/-- The JSON payloads this subsystem writes into the Event table. -/
inductive EventPayload where
  | add (productId variantId handle : String) (isGuest : Bool) : EventPayload
  | remove (productId variantId handle : String) (isGuest : Bool) : EventPayload
  | migrate (migratedCount : Nat) (guestId : String) : EventPayload
deriving DecidableEq

/-- A row of the Event table. -/
structure Event where
  shopId : Nat
  customerId : Option Nat
  type : String
  payload : EventPayload
deriving DecidableEq

/-- The database state behind the Prisma client; `nextId` feeds generated
row ids. -/
structure DB where
  shops : List Shop
  customers : List Customer
  wishlists : List Wishlist
  items : List WishlistItem
  events : List Event
  nextId : Nat
deriving DecidableEq

/-- First row satisfying a predicate; models `prisma.*.findFirst` (and the
`findUnique` calls, whose key columns the data carries at most once). -/
def findRow (p : α → Prop) [DecidablePred p] : List α → Option α
  | [] => none
  | a :: l => if p a then some a else findRow p l

/-- Rows satisfying a predicate; models relation loading and cascading
deletes over row lists. -/
def filterRows (p : α → Prop) [DecidablePred p] : List α → List α
  | [] => []
  | a :: l => if p a then a :: filterRows p l else filterRows p l

/-- The dedup key check of the wishlist: an item row matching a wishlist id
and a (productId, variantId) pair. -/
def itemMatches (wid pid vid : Nat) (i : WishlistItem) : Prop :=
  i.wishlistId = wid ∧ i.productId = pid ∧ i.variantId = vid

instance (wid pid vid : Nat) : DecidablePred (itemMatches wid pid vid) := by
  intro i
  unfold itemMatches
  infer_instance

/-- Models `prisma.shop.findUnique({ where: { domain } })`. -/
def findShop (db : DB) (domain : String) : Option Shop :=
  findRow (fun s => s.domain = domain) db.shops

/-- Models `prisma.customer.findFirst` by shop id and external customer
id. -/
def findCustomer (db : DB) (shopId extId : Nat) : Option Customer :=
  findRow (fun c => c.shopId = shopId ∧ c.shopCustomerId = extId) db.customers

/-- Models `prisma.wishlist.findFirst` over shop id, a null customer and a
share key: the guest wishlist lookup. -/
def findGuestWishlist (db : DB) (shopId : Nat) (uuid : String) : Option Wishlist :=
  findRow (fun w => w.shopId = shopId ∧ w.customerId = none ∧ w.shareUUID = uuid)
    db.wishlists

/-- Models `prisma.wishlist.findUnique` on the (shopId, customerId) key. -/
def findCustomerWishlist (db : DB) (shopId customerId : Nat) : Option Wishlist :=
  findRow (fun w => w.shopId = shopId ∧ w.customerId = some customerId) db.wishlists

/-- Models loading the `items` relation of a wishlist. -/
def wishlistItems (db : DB) (wid : Nat) : List WishlistItem :=
  filterRows (fun i => i.wishlistId = wid) db.items

/- ===== SessionManager (src/unnamed/part_004) ===== -/

/-- The session projection returned by `validateSession`; `expiresAt` keeps
the decoded `exp` claim in seconds (the JS code wraps it in a Date). -/
structure SessionData where
  shop : String
  customerId : Option String
  type : String
  expiresAt : Nat
deriving DecidableEq

/-- Embedding of `SessionManager.validateSession(token, shop)`: verify the
token, reject a shop-scope mismatch, re-check the expiry, and return the
decoded session. -/
def validateSession (env : Option String) (token : Jwt) (shop : String) (now : Nat) :
    Option SessionData :=
  match verifyStorefrontToken env token now with
  | none => none
  | some decoded =>
    if decoded.shop ≠ shop then none
    else if decoded.exp < now then none
    else some ⟨decoded.shop, decoded.customerId, decoded.type, decoded.exp⟩

/-- The value returned by a successful `refreshSession`. -/
structure RefreshData where
  success : Bool
  token : Jwt
  expiresIn : Nat
  customerId : Option String
deriving DecidableEq

/-- Embedding of `SessionManager.refreshSession(token, shop)`: validate,
then reissue via `generateStorefrontToken(shop, session.customerId)` with
the JS default `expiresIn` of 3600 seconds, whatever the subject kind. -/
def refreshSession (env : Option String) (token : Jwt) (shop : String) (now : Nat) :
    Option RefreshData :=
  match validateSession env token shop now with
  | none => none
  | some session =>
    some ⟨true, generateStorefrontToken env shop session.customerId 3600 now,
          3600, session.customerId⟩

/- ===== Wishlist proxy routes (src/unnamed/part_003) ===== -/

/-- The body of POST /items. -/
structure AddBody where
  productId : Option String
  variantId : Option String
  handle : Option String

/-- The item projection serialized into responses (the BigInt columns are
rendered with toString; the rendering is injective, so the numbers are
kept). -/
structure ItemOut where
  id : Nat
  productId : Nat
  variantId : Nat
  handle : String
deriving DecidableEq

/-- Response of POST /items. -/
structure AddResponse where
  status : Nat
  success : Bool
  error : Option String
  item : Option ItemOut
  token : Option Jwt
deriving DecidableEq

/-- The guest/registered wishlist resolution block of POST /items: find the
wishlist for the caller identity, creating an empty one when absent.  Early
responses (customer not found, or `BigInt` throwing on a non-numeric
registered id, caught by the route as a 500) come back as `Except.error`. -/
def addResolveWishlist (db : DB) (shopId : Nat) (parsed : ParsedCustomer) (now : Nat) :
    Except AddResponse (Wishlist × DB) :=
  if parsed.isGuest then
    let uuid := match parsed.customerId with
                | some k => if k = "" then "default-guest" else k
                | none => "default-guest"
    match findGuestWishlist db shopId uuid with
    | some w => .ok (w, db)
    | none =>
      let createUUID := match parsed.customerId with
                        | some k => if k = "" then "guest_" ++ toString now else k
                        | none => "guest_" ++ toString now
      let w : Wishlist := ⟨db.nextId, shopId, none, createUUID⟩
      .ok (w, { db with wishlists := db.wishlists ++ [w], nextId := db.nextId + 1 })
  else
    match parsed.customerId.bind parseBigInt with
    | none => .error ⟨500, false, some "Internal server error", none, none⟩
    | some extId =>
      match findCustomer db shopId extId with
      | none => .error ⟨404, false, some "Customer not found", none, none⟩
      | some customer =>
        match findCustomerWishlist db shopId customer.id with
        | some w => .ok (w, db)
        | none =>
          let w : Wishlist := ⟨db.nextId, shopId, some customer.id,
            "customer_" ++ toString customer.id ++ "_" ++ toString now⟩
          .ok (w, { db with wishlists := db.wishlists ++ [w], nextId := db.nextId + 1 })

/-- Embedding of POST /items (add item to wishlist).  After creating the
item, the route logs an event whose data reads `customer?.id`; the
`const customer` of the registered branch is block-scoped to the wishlist
resolution, so for registered callers that read throws a ReferenceError
which the route catch turns into a 500 — after the item row was already
created. -/
def addItemRoute (env : Option String) (db : DB) (shop : String)
    (customerId : Option String) (body : AddBody) (now : Nat) : AddResponse × DB :=
  if falsyStr body.productId || falsyStr body.variantId || falsyStr body.handle then
    (⟨400, false, some "Missing required fields: productId, variantId, handle",
      none, none⟩, db)
  else
    let productIdStr := body.productId.getD ""
    let variantIdStr := body.variantId.getD ""
    let handle := body.handle.getD ""
    let parsed := parseCustomerId customerId
    match findShop db shop with
    | none => (⟨404, false, some "Shop not found", none, none⟩, db)
    | some shopRecord =>
      match addResolveWishlist db shopRecord.id parsed now with
      | .error resp => (resp, db)
      | .ok (wishlist, db1) =>
        match parseBigInt productIdStr, parseBigInt variantIdStr with
        | some pid, some vid =>
          (match findRow (itemMatches wishlist.id pid vid) db1.items with
          | some existingItem =>
            (⟨409, false, some "Item already in wishlist",
              some ⟨existingItem.id, existingItem.productId, existingItem.variantId,
                    existingItem.handle⟩, none⟩, db1)
          | none =>
            let newItem : WishlistItem := ⟨db1.nextId, wishlist.id, pid, vid, handle⟩
            let db2 : DB := { db1 with items := db1.items ++ [newItem],
                                       nextId := db1.nextId + 1 }
            if parsed.isGuest then
              let db3 : DB := { db2 with events := db2.events ++
                [⟨shopRecord.id, none, "add",
                  .add productIdStr variantIdStr handle true⟩] }
              (⟨201, true, none, some ⟨newItem.id, pid, vid, handle⟩,
                some (generateStorefrontToken env shop customerId 3600 now)⟩, db3)
            else
              (⟨500, false, some "Internal server error", none, none⟩, db2))
        | _, _ => (⟨500, false, some "Internal server error", none, none⟩, db1)

/-- Response of DELETE /items/:id. -/
structure DeleteResponse where
  status : Nat
  success : Bool
  error : Option String
  message : Option String
  token : Option Jwt
deriving DecidableEq

/-- Embedding of DELETE /items/:id (remove item from wishlist).  The shop
check, then the ownership check (guest callers may only touch guest
wishlists; registered callers only their own wishlist) answer 403; after
the row delete, the event data reads the block-scoped `customer` out of
scope, so the registered success path throws a ReferenceError and answers
500 with the item already deleted.  A missing parent wishlist row cannot
occur under the schema FK constraints; it is mapped to the catch-all
500. -/
def deleteItemRoute (env : Option String) (db : DB) (shop : String)
    (customerId : Option String) (itemId : Nat) (now : Nat) : DeleteResponse × DB :=
  let parsed := parseCustomerId customerId
  match findShop db shop with
  | none => (⟨404, false, some "Shop not found", none, none⟩, db)
  | some shopRecord =>
    match findRow (fun i => i.id = itemId) db.items with
    | none => (⟨404, false, some "Item not found", none, none⟩, db)
    | some wishlistItem =>
      match findRow (fun w => w.id = wishlistItem.wishlistId) db.wishlists with
      | none => (⟨500, false, some "Internal server error", none, none⟩, db)
      | some wishlist =>
        if wishlist.shopId ≠ shopRecord.id then
          (⟨403, false, some "Access denied", none, none⟩, db)
        else if parsed.isGuest then
          if wishlist.customerId ≠ none then
            (⟨403, false, some "Access denied", none, none⟩, db)
          else
            let db1 : DB := { db with items := filterRows (fun i => ¬ i.id = itemId) db.items }
            let db2 : DB := { db1 with events := db1.events ++
              [⟨shopRecord.id, none, "remove",
                .remove (toString wishlistItem.productId) (toString wishlistItem.variantId)
                  wishlistItem.handle true⟩] }
            (⟨200, true, none, some "Item removed from wishlist",
              some (generateStorefrontToken env shop customerId 3600 now)⟩, db2)
        else
          match parsed.customerId.bind parseBigInt with
          | none => (⟨500, false, some "Internal server error", none, none⟩, db)
          | some extId =>
            match findCustomer db shopRecord.id extId with
            | none => (⟨403, false, some "Access denied", none, none⟩, db)
            | some customer =>
              if wishlist.customerId ≠ some customer.id then
                (⟨403, false, some "Access denied", none, none⟩, db)
              else
                let db1 : DB := { db with
                  items := filterRows (fun i => ¬ i.id = itemId) db.items }
                (⟨500, false, some "Internal server error", none, none⟩, db1)

/-- Response of POST /migrate.  The no-op path answers without the
`migratedCount` and `token` fields, which is recorded by the `none`
values. -/
structure MigrateResponse where
  status : Nat
  success : Bool
  error : Option String
  message : Option String
  migrated : Option Bool
  migratedCount : Option Nat
  token : Option Jwt
deriving DecidableEq

/-- The per-item migration loop of POST /migrate: for each guest item, skip
it when the target wishlist already holds its (productId, variantId) pair,
otherwise create a copy in the target, counting the copies. -/
def migrateItems (guestItems : List WishlistItem) (targetId : Nat) (db : DB)
    (count : Nat) : Nat × DB :=
  match guestItems with
  | [] => (count, db)
  | item :: rest =>
    match findRow (itemMatches targetId item.productId item.variantId) db.items with
    | some _ => migrateItems rest targetId db count
    | none =>
      let newItem : WishlistItem :=
        ⟨db.nextId, targetId, item.productId, item.variantId, item.handle⟩
      migrateItems rest targetId
        { db with items := db.items ++ [newItem], nextId := db.nextId + 1 } (count + 1)

/-- Embedding of POST /migrate (migrate guest wishlist to customer
account): require a guest token and a registered caller, resolve shop and
customer, look up the guest wishlist by the key extracted with
`guestToken.replace("guest_", "")`; absent or empty guest wishlists answer
the no-op response with no mutation; otherwise fold the items into the
(found or created) customer wishlist with deduplication, delete the guest
wishlist (cascading over its item rows), record the migrate event and
answer with the count and a fresh token. -/
def migrateRoute (env : Option String) (db : DB) (shop : String)
    (customerId : Option String) (guestToken : Option String) (now : Nat) :
    MigrateResponse × DB :=
  if falsyStr guestToken then
    (⟨400, false, some "Guest token required", none, none, none, none⟩, db)
  else
    let gtok := guestToken.getD ""
    let parsed := parseCustomerId customerId
    if parsed.isGuest then
      (⟨400, false, some "Must be logged in to migrate wishlist",
        none, none, none, none⟩, db)
    else
      match findShop db shop with
      | none => (⟨404, false, some "Shop not found", none, none, none, none⟩, db)
      | some shopRecord =>
        match parsed.customerId.bind parseBigInt with
        | none => (⟨500, false, some "Internal server error", none, none, none, none⟩, db)
        | some extId =>
          match findCustomer db shopRecord.id extId with
          | none => (⟨404, false, some "Customer not found", none, none, none, none⟩, db)
          | some customer =>
            let guestId := jsReplaceFirst gtok "guest_"
            match findGuestWishlist db shopRecord.id guestId with
            | none =>
              (⟨200, true, none, some "No guest wishlist to migrate",
                some false, none, none⟩, db)
            | some guestWishlist =>
              let guestItems := wishlistItems db guestWishlist.id
              if guestItems = [] then
                (⟨200, true, none, some "No guest wishlist to migrate",
                  some false, none, none⟩, db)
              else
                let found := findCustomerWishlist db shopRecord.id customer.id
                let customerWishlist : Wishlist :=
                  match found with
                  | some w => w
                  | none => ⟨db.nextId, shopRecord.id, some customer.id,
                      "customer_" ++ toString customer.id ++ "_" ++ toString now⟩
                let db1 : DB :=
                  match found with
                  | some _ => db
                  | none =>
                    { db with
                      wishlists := db.wishlists ++ [customerWishlist]
                      nextId := db.nextId + 1 }
                let migrated := migrateItems guestItems customerWishlist.id db1 0
                let migratedCount := migrated.1
                let db2 := migrated.2
                let db3 : DB := { db2 with
                  wishlists := filterRows (fun w => ¬ w.id = guestWishlist.id) db2.wishlists,
                  items := filterRows (fun i => ¬ i.wishlistId = guestWishlist.id) db2.items }
                let db4 : DB := { db3 with events := db3.events ++
                  [⟨shopRecord.id, some customer.id, "migrate",
                    .migrate migratedCount guestId⟩] }
                (⟨200, true, none,
                  some ("Migrated " ++ toString migratedCount ++ " items to your account"),
                  some true, some migratedCount,
                  some (generateStorefrontToken env shop customerId 3600 now)⟩, db4)

/- ===== Helper lemmas ===== -/

lemma data_append (a b : String) : (a ++ b).data = a.data ++ b.data := rfl

lemma jsStartsWith_append (pre suffix : String) :
    jsStartsWith (pre ++ suffix) pre = true := by
  simp only [jsStartsWith, data_append, decide_eq_true_eq]
  exact List.take_left pre.data suffix.data

lemma jsSubstringFrom_guest (suffix : String) :
    jsSubstringFrom ("guest_" ++ suffix) 6 = suffix := by
  show String.mk (("guest_".data ++ suffix.data).drop 6) = suffix
  rw [List.drop_left' (by decide)]

lemma guest_append_ne_empty (suffix : String) : ("guest_" ++ suffix) ≠ "" := by
  intro h
  have : ("guest_" ++ suffix).data = "".data := by rw [h]
  simp only [data_append] at this
  exact absurd (congrArg List.length this) (by simp)

lemma parseCustomerId_guest (suffix : String) :
    parseCustomerId (some ("guest_" ++ suffix)) = ⟨true, some suffix⟩ := by
  simp only [parseCustomerId, guest_append_ne_empty, if_false,
    jsStartsWith_append, if_true, jsSubstringFrom_guest]

lemma listReplaceFirst_self_append (pat k : List Char) (hne : pat ≠ []) :
    listReplaceFirst pat (pat ++ k) = k := by
  cases pat with
  | nil => exact absurd rfl hne
  | cons c rest =>
    show listReplaceFirst (c :: rest) ((c :: rest) ++ k) = k
    rw [List.cons_append, listReplaceFirst, ← List.cons_append,
      List.take_left, List.drop_left, if_pos rfl]

lemma jsReplaceFirst_guest (suffix : String) :
    jsReplaceFirst ("guest_" ++ suffix) "guest_" = suffix := by
  show String.mk (listReplaceFirst "guest_".data ("guest_".data ++ suffix.data)) = suffix
  rw [listReplaceFirst_self_append _ _ (by decide)]

lemma findRow_eq_none {p : α → Prop} [DecidablePred p] {l : List α}
    (h : ∀ a ∈ l, ¬ p a) : findRow p l = none := by
  induction l with
  | nil => rfl
  | cons a l ih =>
    rw [findRow, if_neg (h a (List.mem_cons_self a l))]
    exact ih fun b hb => h b (List.mem_cons_of_mem a hb)

lemma findRow_append (p : α → Prop) [DecidablePred p] (l1 l2 : List α) :
    findRow p (l1 ++ l2) =
      match findRow p l1 with
      | some a => some a
      | none => findRow p l2 := by
  induction l1 with
  | nil => rfl
  | cons a l ih =>
    by_cases h : p a
    · rw [List.cons_append, findRow, if_pos h, findRow, if_pos h]
    · rw [List.cons_append, findRow, if_neg h, findRow, if_neg h, ih]

lemma filterRows_eq_nil {p : α → Prop} [DecidablePred p] {l : List α}
    (h : ∀ a ∈ l, ¬ p a) : filterRows p l = [] := by
  induction l with
  | nil => rfl
  | cons a l ih =>
    rw [filterRows, if_neg (h a (List.mem_cons_self a l))]
    exact ih fun b hb => h b (List.mem_cons_of_mem a hb)

lemma filterRows_append (p : α → Prop) [DecidablePred p] (l1 l2 : List α) :
    filterRows p (l1 ++ l2) = filterRows p l1 ++ filterRows p l2 := by
  induction l1 with
  | nil => rfl
  | cons a l ih =>
    by_cases h : p a
    · rw [List.cons_append, filterRows, if_pos h, filterRows, if_pos h,
        List.cons_append, ih]
    · rw [List.cons_append, filterRows, if_neg h, filterRows, if_neg h, ih]

/- ===== Claims ===== -/

/-- Claim C8 counterexample: the identity resolver maps the empty string --
a string value that is neither absent nor guest-prefixed -- to the guest
classification with a null key, not to a registered identity with the empty
string as key. -/
theorem c8_counterexample :
    parseCustomerId (some "") = ⟨true, none⟩ ∧
    parseCustomerId (some "") ≠ ⟨false, some ""⟩ := by
  decide

/-- Claim C8 (amended): the identity resolver is total and side-effect-free
(it is a Lean function); `guest_<suffix>` resolves to a guest with key
`<suffix>`; an absent identifier resolves to a guest with a null key; any
other non-empty string resolves to a registered identity carrying the
value; the empty string behaves like an absent identifier. -/
theorem c8_identity_resolver (s suffix : String) :
    parseCustomerId none = ⟨true, none⟩ ∧
    parseCustomerId (some "") = ⟨true, none⟩ ∧
    parseCustomerId (some ("guest_" ++ suffix)) = ⟨true, some suffix⟩ ∧
    (s ≠ "" → jsStartsWith s "guest_" = false →
      parseCustomerId (some s) = ⟨false, some s⟩) ∧
    ((parseCustomerId (some s)).isGuest = true ∨
      (parseCustomerId (some s)).isGuest = false) := by
  refine ⟨rfl, by decide, parseCustomerId_guest suffix, ?_, ?_⟩
  · intro hne hpre
    simp only [parseCustomerId, if_neg hne, hpre, Bool.false_eq_true, if_false]
  · cases (parseCustomerId (some s)).isGuest
    · right; rfl
    · left; rfl

/-- Claim C8 witness at concrete inputs. -/
theorem c8_identity_resolver_witness :
    parseCustomerId (some "guest_abc") = ⟨true, some "abc"⟩ ∧
    parseCustomerId (some "12345") = ⟨false, some "12345"⟩ := by
  refine ⟨?_, ?_⟩
  · have h := (c8_identity_resolver "12345" "abc").2.2.1
    simpa using h
  · exact (c8_identity_resolver "12345" "abc").2.2.2.1 (by decide) (by decide)

/-- Claim C7: the token service round-trips.  Signing a claims payload
(shop, subject, kind storefront, issued-at `t0`, expiry `t0 + e`) and
verifying strictly before the expiry returns the original claims;
verification at any time after the expiry fails. -/
theorem c7_token_roundtrip (env : Option String) (shop : String)
    (cid : Option String) (e t0 now : Nat) :
    (now < t0 + e →
      verifyStorefrontToken env (generateStorefrontToken env shop cid e t0) now =
        some ⟨shop, cid, "storefront", t0, t0 + e⟩) ∧
    (t0 + e < now →
      verifyStorefrontToken env (generateStorefrontToken env shop cid e t0) now =
        none) := by
  constructor
  · intro h
    simp only [verifyStorefrontToken, generateStorefrontToken, jwtSign, jwtVerify,
      true_and]
    rw [if_pos h]
  · intro h
    simp only [verifyStorefrontToken, generateStorefrontToken, jwtSign, jwtVerify,
      true_and]
    rw [if_neg (by omega)]

/-- Claim C7 witness at concrete inputs. -/
theorem c7_token_roundtrip_witness :
    verifyStorefrontToken none
        (generateStorefrontToken none "s1.example.com" (some "42") 3600 100) 200 =
      some ⟨"s1.example.com", some "42", "storefront", 100, 3700⟩ ∧
    verifyStorefrontToken none
        (generateStorefrontToken none "s1.example.com" (some "42") 3600 100) 4000 =
      none :=
  ⟨(c7_token_roundtrip none "s1.example.com" (some "42") 3600 100 200).1 (by decide),
   (c7_token_roundtrip none "s1.example.com" (some "42") 3600 100 4000).2 (by decide)⟩

lemma validateSession_cross_shop (env : Option String) (X Y : String)
    (cid : Option String) (e t0 now : Nat) (hXY : Y ≠ X) :
    validateSession env (generateStorefrontToken env X cid e t0) Y now = none := by
  simp only [validateSession, verifyStorefrontToken, generateStorefrontToken,
    jwtSign, jwtVerify, true_and]
  by_cases h : now < t0 + e
  · rw [if_pos h]
    simp only [ne_eq]
    rw [if_pos (fun hc => hXY hc.symm)]
  · rw [if_neg h]

lemma validateSession_expired (env : Option String) (X : String)
    (cid : Option String) (e t0 now : Nat) (h : t0 + e ≤ now) :
    validateSession env (generateStorefrontToken env X cid e t0) X now = none := by
  simp only [validateSession, verifyStorefrontToken, generateStorefrontToken,
    jwtSign, jwtVerify, true_and]
  rw [if_neg (by omega)]

lemma validateSession_live (env : Option String) (X : String)
    (cid : Option String) (e t0 now : Nat) (h : now < t0 + e) :
    validateSession env (generateStorefrontToken env X cid e t0) X now =
      some ⟨X, cid, "storefront", t0 + e⟩ := by
  simp only [validateSession, verifyStorefrontToken, generateStorefrontToken,
    jwtSign, jwtVerify, true_and]
  rw [if_pos h]
  simp only [ne_eq, not_true_eq_false, if_false]
  rw [if_neg (by omega)]

/-- Claim C4: cross-tenant isolation of `validateSession`.  A token issued
for shop `X` is rejected (null) against any distinct shop `Y`; an expired
token is rejected; otherwise the decoded session is returned. -/
theorem c4_validate_session (env : Option String) (X Y : String)
    (cid : Option String) (e t0 now : Nat) :
    (Y ≠ X →
      validateSession env (generateStorefrontToken env X cid e t0) Y now = none) ∧
    (t0 + e ≤ now →
      validateSession env (generateStorefrontToken env X cid e t0) X now = none) ∧
    (now < t0 + e →
      validateSession env (generateStorefrontToken env X cid e t0) X now =
        some ⟨X, cid, "storefront", t0 + e⟩) :=
  ⟨validateSession_cross_shop env X Y cid e t0 now,
   validateSession_expired env X cid e t0 now,
   validateSession_live env X cid e t0 now⟩

/-- Claim C4 witness at concrete inputs. -/
theorem c4_validate_session_witness :
    validateSession none (generateStorefrontToken none "sx.example.com" (some "1") 3600 0)
      "sy.example.com" 10 = none ∧
    validateSession none (generateStorefrontToken none "sx.example.com" (some "1") 3600 0)
      "sx.example.com" 4000 = none ∧
    validateSession none (generateStorefrontToken none "sx.example.com" (some "1") 3600 0)
      "sx.example.com" 10 = some ⟨"sx.example.com", some "1", "storefront", 3600⟩ :=
  ⟨(c4_validate_session none "sx.example.com" "sy.example.com" (some "1") 3600 0 10).1
      (by decide),
   (c4_validate_session none "sx.example.com" "sy.example.com" (some "1") 3600 0 4000).2.1
      (by decide),
   (c4_validate_session none "sx.example.com" "sy.example.com" (some "1") 3600 0 10).2.2
      (by decide)⟩

/-- Claim C9 counterexample: refreshing a valid guest token does not grant
the 86400 second guest lifetime the claim specifies.  A guest token for
shop s1 issued at time 0 and refreshed at time 10 comes back with expiry
3610 (a 3600 second window), not 86410. -/
theorem c9_counterexample :
    (refreshSession none (generateGuestToken none "s1.example.com" "g1" 0)
        "s1.example.com" 10).map (fun r => r.token.payload.exp) = some 3610 ∧
    some 3610 ≠ some 86410 := by
  constructor
  · rfl
  · decide

/-- Claim C9 (amended): for every valid, unexpired token presented with its
matching shop, `refreshSession` reissues a fresh token with the same
subject and a fixed 3600 second expiry window regardless of whether the
subject is registered or guest, and returns null on invalid input (expired
token or shop mismatch) rather than propagating a failure. -/
theorem c9_refresh_session (env : Option String) (shop other : String)
    (cid : Option String) (e t0 now : Nat) :
    (now < t0 + e →
      refreshSession env (generateStorefrontToken env shop cid e t0) shop now =
        some ⟨true, generateStorefrontToken env shop cid 3600 now, 3600, cid⟩) ∧
    (t0 + e ≤ now →
      refreshSession env (generateStorefrontToken env shop cid e t0) shop now = none) ∧
    (other ≠ shop →
      refreshSession env (generateStorefrontToken env shop cid e t0) other now = none) := by
  refine ⟨?_, ?_, ?_⟩
  · intro h
    rw [refreshSession, validateSession_live env shop cid e t0 now h]
  · intro h
    rw [refreshSession, validateSession_expired env shop cid e t0 now h]
  · intro h
    rw [refreshSession, validateSession_cross_shop env shop other cid e t0 now h]

/-- Claim C9 witness at concrete inputs (a guest subject refreshed into a
3600 second window, an expired token, and a cross-shop refresh). -/
theorem c9_refresh_session_witness :
    refreshSession none
        (generateStorefrontToken none "s1.example.com" (some "guest_g1") 86400 0)
        "s1.example.com" 10 =
      some ⟨true, generateStorefrontToken none "s1.example.com" (some "guest_g1") 3600 10,
            3600, some "guest_g1"⟩ ∧
    refreshSession none
        (generateStorefrontToken none "s1.example.com" (some "guest_g1") 86400 0)
        "s1.example.com" 90000 = none ∧
    refreshSession none
        (generateStorefrontToken none "s1.example.com" (some "guest_g1") 86400 0)
        "s2.example.com" 10 = none :=
  ⟨(c9_refresh_session none "s1.example.com" "s2.example.com" (some "guest_g1")
      86400 0 10).1 (by decide),
   (c9_refresh_session none "s1.example.com" "s2.example.com" (some "guest_g1")
      86400 0 90000).2.1 (by decide),
   (c9_refresh_session none "s1.example.com" "s2.example.com" (some "guest_g1")
      86400 0 10).2.2 (by decide)⟩

/-- Claim C10 counterexample: with no configured JWT secret, token signing
and verification silently proceed with the hardcoded development default
instead of failing as a startup or configuration error -- a freshly signed
token verifies fine. -/
theorem c10_counterexample :
    jwtSecret none = "your-jwt-secret-change-in-production" ∧
    verifyStorefrontToken none
        (generateStorefrontToken none "s1.example.com" (some "42") 3600 0) 10 =
      some ⟨"s1.example.com", some "42", "storefront", 0, 3600⟩ := by
  constructor
  · rfl
  · rfl

/-- Claim C10 (amended): absence (or emptiness) of the upstream shared
secret makes the proxy middleware answer the 500 configuration response,
which is distinct from the 401 authentication failure; absence of the JWT
signing secret, however, is not an error: signing falls back to the
hardcoded development default and verification under the same absent
configuration succeeds. -/
theorem c10_secret_config (req : ProxyRequest) (shop : String)
    (cid : Option String) (e t0 now : Nat) :
    verifyAppProxyRequest none req = .respond 500 "Server configuration error" ∧
    verifyAppProxyRequest (some "") req = .respond 500 "Server configuration error" ∧
    verifyAppProxyRequest none req ≠ .respond 401 "Unauthorized" ∧
    jwtSecret none = defaultJwtSecret ∧
    (now < t0 + e →
      verifyStorefrontToken none (generateStorefrontToken none shop cid e t0) now =
        some ⟨shop, cid, "storefront", t0, t0 + e⟩) := by
  refine ⟨rfl, rfl, by intro h; exact absurd (by rw [← h]; rfl) (by decide :
    (MiddlewareOut.respond 500 "Server configuration error") ≠
      .respond 401 "Unauthorized"), rfl, ?_⟩
  intro h
  simp only [verifyStorefrontToken, generateStorefrontToken, jwtSign, jwtVerify,
    true_and]
  rw [if_pos h]

/-- Claim C10 witness at concrete inputs. -/
theorem c10_secret_config_witness :
    verifyAppProxyRequest none ⟨none, "b", none, none, none⟩ =
      .respond 500 "Server configuration error" ∧
    verifyStorefrontToken none
        (generateStorefrontToken none "s1.example.com" none 3600 0) 10 =
      some ⟨"s1.example.com", none, "storefront", 0, 3600⟩ :=
  ⟨(c10_secret_config ⟨none, "b", none, none, none⟩ "s1.example.com" none 3600 0 10).1,
   (c10_secret_config ⟨none, "b", none, none, none⟩ "s1.example.com" none 3600 0 10).2.2.2.2
     (by decide)⟩

/-- Claim C6: behavior of the request authenticator at the failing input
and around it.  An absent signature header and a same-length mismatching
signature (in particular any signature over a tampered body) answer 401,
and an untampered body under the correct secret is accepted; but a
malformed header whose base64 decoding is not 32 bytes long makes
`crypto.timingSafeEqual` throw, the exception escapes the middleware, and
Express answers 500 -- not the 401 AuthError the claim states. -/
theorem c6_hmac_behavior :
    verifyAppProxyRequest (some "sec") ⟨none, "body", some "s1", none, none⟩ =
      .respond 401 "Unauthorized" ∧
    verifyAppProxyRequest (some "sec")
        ⟨some (hmacSha256 "sec" "paid=1"), "paid=9999", some "s1", none, none⟩ =
      .respond 401 "Unauthorized" ∧
    verifyAppProxyRequest (some "sec")
        ⟨some (hmacSha256 "sec" "paid=1"), "paid=1", some "s1", none, none⟩ =
      .next "s1" ∧
    verifyAppProxyRequest (some "sec")
        ⟨some (.raw [97, 98, 99]), "paid=1", some "s1", none, none⟩ =
      .respond 500 "Internal Server Error" := by
  refine ⟨rfl, ?_, rfl, rfl⟩
  simp only [verifyAppProxyRequest, verifyAppProxyHMAC, hmacSha256, timingSafeEqual,
    byteLength, if_pos rfl]
  rfl

/-- Claim C3: evaluation of the delete route on a store with shop 1
(domain s1.example.com), customers 2 (external id 7, the owner) and 5
(external id 8), wishlist 3 owned by customer 2, and item 10 in that
wishlist.  A guest caller and the other customer are both refused with 403
and the item stays; the owner passes the ownership check and the item row
is deleted, but the event write then reads the block-scoped `customer`
binding out of scope, throws a ReferenceError, and the route answers 500
instead of the success response the claim states. -/
theorem c3_delete_ownership :
    deleteItemRoute none
        ⟨[⟨1, "s1.example.com"⟩], [⟨2, 1, 7⟩, ⟨5, 1, 8⟩], [⟨3, 1, some 2, "cu-share"⟩],
         [⟨10, 3, 100, 200, "shoe"⟩], [], 20⟩
        "s1.example.com" (some "guest_g1") 10 0 =
      (⟨403, false, some "Access denied", none, none⟩,
       ⟨[⟨1, "s1.example.com"⟩], [⟨2, 1, 7⟩, ⟨5, 1, 8⟩], [⟨3, 1, some 2, "cu-share"⟩],
        [⟨10, 3, 100, 200, "shoe"⟩], [], 20⟩) ∧
    deleteItemRoute none
        ⟨[⟨1, "s1.example.com"⟩], [⟨2, 1, 7⟩, ⟨5, 1, 8⟩], [⟨3, 1, some 2, "cu-share"⟩],
         [⟨10, 3, 100, 200, "shoe"⟩], [], 20⟩
        "s1.example.com" (some "8") 10 0 =
      (⟨403, false, some "Access denied", none, none⟩,
       ⟨[⟨1, "s1.example.com"⟩], [⟨2, 1, 7⟩, ⟨5, 1, 8⟩], [⟨3, 1, some 2, "cu-share"⟩],
        [⟨10, 3, 100, 200, "shoe"⟩], [], 20⟩) ∧
    deleteItemRoute none
        ⟨[⟨1, "s1.example.com"⟩], [⟨2, 1, 7⟩, ⟨5, 1, 8⟩], [⟨3, 1, some 2, "cu-share"⟩],
         [⟨10, 3, 100, 200, "shoe"⟩], [], 20⟩
        "s1.example.com" (some "7") 10 0 =
      (⟨500, false, some "Internal server error", none, none⟩,
       ⟨[⟨1, "s1.example.com"⟩], [⟨2, 1, 7⟩, ⟨5, 1, 8⟩], [⟨3, 1, some 2, "cu-share"⟩],
        [], [], 20⟩) := by
  refine ⟨rfl, rfl, rfl⟩

lemma ne_empty_of_parseBigInt {s : String} {n : Nat} (h : parseBigInt s = some n) :
    s ≠ "" := by
  intro he
  subst he
  simp [parseBigInt] at h

lemma falsyStr_of_ne {s : String} (h : s ≠ "") : falsyStr (some s) = false := by
  simp [falsyStr, h]

lemma parseCustomerId_registered {s : String} (hne : s ≠ "")
    (hpre : jsStartsWith s "guest_" = false) :
    parseCustomerId (some s) = ⟨false, some s⟩ := by
  simp only [parseCustomerId, if_neg hne, hpre, Bool.false_eq_true, if_false]

/-- Claim C5: adding the same (productId, variantId) pair twice.  Both for
a guest wishlist (id 3, share key `gkey`) and for a registered customer
wishlist (id 4, customer 2), over any list of pre-existing items not
containing the pair: the second add answers exactly one 409 conflict
carrying the already-existing item, mutates nothing, and the wishlist ends
up with exactly one item with that pair.  (On the registered first add the
route answers 500 -- a ReferenceError in its event logging -- but the item
row is created, so the claimed end state still holds.) -/
theorem c5_duplicate_add (env : Option String) (dom gkey ps vs hdl ck su : String)
    (p v k : Nat) (C : List Customer) (L L2 : List WishlistItem) (E : List Event)
    (nid now now2 : Nat)
    (hg : gkey ≠ "")
    (hps : parseBigInt ps = some p) (hvs : parseBigInt vs = some v) (hh : hdl ≠ "")
    (hL : ∀ i ∈ L, ¬ itemMatches 3 p v i)
    (hck : parseBigInt ck = some k) (hckg : jsStartsWith ck "guest_" = false)
    (hL2 : ∀ i ∈ L2, ¬ itemMatches 4 p v i) :
    let db0 : DB := ⟨[⟨1, dom⟩], C, [⟨3, 1, none, gkey⟩], L, E, nid⟩
    let cid : Option String := some ("guest_" ++ gkey)
    let body : AddBody := ⟨some ps, some vs, some hdl⟩
    let first := addItemRoute env db0 dom cid body now
    let second := addItemRoute env first.2 dom cid body now2
    let dbR : DB := ⟨[⟨1, dom⟩], [⟨2, 1, k⟩], [⟨4, 1, some 2, su⟩], L2, E, nid⟩
    let cidR : Option String := some ck
    let firstR := addItemRoute env dbR dom cidR body now
    let secondR := addItemRoute env firstR.2 dom cidR body now2
    first.1.status = 201 ∧
    second = (⟨409, false, some "Item already in wishlist",
      some ⟨nid, p, v, hdl⟩, none⟩, first.2) ∧
    filterRows (itemMatches 3 p v) first.2.items = [⟨nid, 3, p, v, hdl⟩] ∧
    firstR.1.status = 500 ∧
    firstR.2.items = L2 ++ [⟨nid, 4, p, v, hdl⟩] ∧
    secondR = (⟨409, false, some "Item already in wishlist",
      some ⟨nid, p, v, hdl⟩, none⟩, firstR.2) ∧
    filterRows (itemMatches 4 p v) firstR.2.items = [⟨nid, 4, p, v, hdl⟩] := by
  have hpsne : ps ≠ "" := ne_empty_of_parseBigInt hps
  have hvsne : vs ≠ "" := ne_empty_of_parseBigInt hvs
  have hckne : ck ≠ "" := ne_empty_of_parseBigInt hck
  have hfalsy : (falsyStr (some ps) || falsyStr (some vs) || falsyStr (some hdl)) = false := by
    rw [falsyStr_of_ne hpsne, falsyStr_of_ne hvsne, falsyStr_of_ne hh]
    rfl
  have hfindL : findRow (itemMatches 3 p v) L = none := findRow_eq_none hL
  have hfindL2 : findRow (itemMatches 4 p v) L2 = none := findRow_eq_none hL2
  have hfind2 : findRow (itemMatches 3 p v) (L ++ [⟨nid, 3, p, v, hdl⟩]) =
      some ⟨nid, 3, p, v, hdl⟩ := by
    rw [findRow_append, hfindL]
    simp [findRow, itemMatches]
  have hfind2R : findRow (itemMatches 4 p v) (L2 ++ [⟨nid, 4, p, v, hdl⟩]) =
      some ⟨nid, 4, p, v, hdl⟩ := by
    rw [findRow_append, hfindL2]
    simp [findRow, itemMatches]
  have h1 : addItemRoute env ⟨[⟨1, dom⟩], C, [⟨3, 1, none, gkey⟩], L, E, nid⟩ dom
      (some ("guest_" ++ gkey)) ⟨some ps, some vs, some hdl⟩ now =
      (⟨201, true, none, some ⟨nid, p, v, hdl⟩,
        some (generateStorefrontToken env dom (some ("guest_" ++ gkey)) 3600 now)⟩,
       ⟨[⟨1, dom⟩], C, [⟨3, 1, none, gkey⟩], L ++ [⟨nid, 3, p, v, hdl⟩],
        E ++ [⟨1, none, "add", .add ps vs hdl true⟩], nid + 1⟩) := by
    simp only [addItemRoute, hfalsy, Bool.false_eq_true, if_false, Option.getD,
      parseCustomerId_guest, findShop, findRow, addResolveWishlist,
      findGuestWishlist, findCustomerWishlist, hg,
      eq_self_iff_true, if_true, and_self, hps, hvs, hfindL]
  have h1R : addItemRoute env ⟨[⟨1, dom⟩], [⟨2, 1, k⟩], [⟨4, 1, some 2, su⟩], L2, E, nid⟩
      dom (some ck) ⟨some ps, some vs, some hdl⟩ now =
      (⟨500, false, some "Internal server error", none, none⟩,
       ⟨[⟨1, dom⟩], [⟨2, 1, k⟩], [⟨4, 1, some 2, su⟩], L2 ++ [⟨nid, 4, p, v, hdl⟩],
        E, nid + 1⟩) := by
    simp only [addItemRoute, hfalsy, Bool.false_eq_true, if_false, Option.getD,
      parseCustomerId_registered hckne hckg, findShop, findRow, addResolveWishlist,
      findGuestWishlist, findCustomerWishlist, findCustomer, Option.bind, hck, eq_self_iff_true, if_true, and_self,
      hps, hvs, hfindL2]
  have h2 : addItemRoute env ⟨[⟨1, dom⟩], C, [⟨3, 1, none, gkey⟩],
      L ++ [⟨nid, 3, p, v, hdl⟩], E ++ [⟨1, none, "add", .add ps vs hdl true⟩], nid + 1⟩
      dom (some ("guest_" ++ gkey)) ⟨some ps, some vs, some hdl⟩ now2 =
      (⟨409, false, some "Item already in wishlist", some ⟨nid, p, v, hdl⟩, none⟩,
       ⟨[⟨1, dom⟩], C, [⟨3, 1, none, gkey⟩], L ++ [⟨nid, 3, p, v, hdl⟩],
        E ++ [⟨1, none, "add", .add ps vs hdl true⟩], nid + 1⟩) := by
    simp only [addItemRoute, hfalsy, Bool.false_eq_true, if_false, Option.getD,
      parseCustomerId_guest, findShop, findRow, addResolveWishlist,
      findGuestWishlist, findCustomerWishlist, hg,
      eq_self_iff_true, if_true, and_self, hps, hvs, hfind2]
  have h2R : addItemRoute env ⟨[⟨1, dom⟩], [⟨2, 1, k⟩], [⟨4, 1, some 2, su⟩],
      L2 ++ [⟨nid, 4, p, v, hdl⟩], E, nid + 1⟩ dom (some ck)
      ⟨some ps, some vs, some hdl⟩ now2 =
      (⟨409, false, some "Item already in wishlist", some ⟨nid, p, v, hdl⟩, none⟩,
       ⟨[⟨1, dom⟩], [⟨2, 1, k⟩], [⟨4, 1, some 2, su⟩], L2 ++ [⟨nid, 4, p, v, hdl⟩],
        E, nid + 1⟩) := by
    simp only [addItemRoute, hfalsy, Bool.false_eq_true, if_false, Option.getD,
      parseCustomerId_registered hckne hckg, findShop, findRow, addResolveWishlist,
      findGuestWishlist, findCustomerWishlist, findCustomer, Option.bind, hck, eq_self_iff_true, if_true, and_self,
      hps, hvs, hfind2R]
  have hfilter : filterRows (itemMatches 3 p v) (L ++ [⟨nid, 3, p, v, hdl⟩]) =
      [⟨nid, 3, p, v, hdl⟩] := by
    rw [filterRows_append, filterRows_eq_nil hL]
    simp [filterRows, itemMatches]
  have hfilterR : filterRows (itemMatches 4 p v) (L2 ++ [⟨nid, 4, p, v, hdl⟩]) =
      [⟨nid, 4, p, v, hdl⟩] := by
    rw [filterRows_append, filterRows_eq_nil hL2]
    simp [filterRows, itemMatches]
  refine ⟨by rw [h1], by rw [h1, h2], by rw [h1]; exact hfilter,
    by rw [h1R], by rw [h1R], by rw [h1R, h2R], by rw [h1R]; exact hfilterR⟩

/-- Claim C5 witness at concrete inputs. -/
theorem c5_duplicate_add_witness :
    let db0 : DB := ⟨[⟨1, "s1.example.com"⟩], [], [⟨3, 1, none, "g1"⟩], [], [], 20⟩
    let cid : Option String := some "guest_g1"
    let body : AddBody := ⟨some "100", some "200", some "shoe"⟩
    let first := addItemRoute none db0 "s1.example.com" cid body 0
    let second := addItemRoute none first.2 "s1.example.com" cid body 5
    first.1.status = 201 ∧
    second = (⟨409, false, some "Item already in wishlist",
      some ⟨20, 100, 200, "shoe"⟩, none⟩, first.2) ∧
    filterRows (itemMatches 3 100 200) first.2.items = [⟨20, 3, 100, 200, "shoe"⟩] := by
  have h := c5_duplicate_add none "s1.example.com" "g1" "100" "200" "shoe" "7" "cu"
    100 200 7 [] [] [] [] 20 0 5
    (by decide) (by decide) (by decide) (by decide)
    (by intro i hi; cases hi) (by decide) (by decide)
    (by intro i hi; cases hi)
  exact ⟨h.1, h.2.1, h.2.2.1⟩

/-- Claim C1: migration deduplicates and still deletes the guest wishlist.
For any registered caller `ck` (customer 2) of shop 1 whose guest wishlist
(id 3, key `gkey`) holds items A = (pA, vA) and B = (pB, vB) with distinct
dedup keys, and whose customer wishlist (id 4) already holds A: the migrate
call answers `migratedCount = 1`, the customer wishlist ends up with
exactly A (the pre-existing row) and B (the migrated copy), and the guest
wishlist and its item rows are gone. -/
theorem c1_migrate_dedup (env : Option String) (dom gkey ck su hA hA2 hB : String)
    (k pA vA pB vB : Nat) (E : List Event) (now : Nat)
    (hck : parseBigInt ck = some k) (hckg : jsStartsWith ck "guest_" = false)
    (hpair : ¬ (pA = pB ∧ vA = vB)) :
    migrateRoute env
        ⟨[⟨1, dom⟩], [⟨2, 1, k⟩], [⟨3, 1, none, gkey⟩, ⟨4, 1, some 2, su⟩],
         [⟨10, 3, pA, vA, hA⟩, ⟨11, 3, pB, vB, hB⟩, ⟨12, 4, pA, vA, hA2⟩], E, 20⟩
        dom (some ck) (some ("guest_" ++ gkey)) now =
      (⟨200, true, none,
        some ("Migrated " ++ toString 1 ++ " items to your account"),
        some true, some 1,
        some (generateStorefrontToken env dom (some ck) 3600 now)⟩,
       ⟨[⟨1, dom⟩], [⟨2, 1, k⟩], [⟨4, 1, some 2, su⟩],
        [⟨12, 4, pA, vA, hA2⟩, ⟨20, 4, pB, vB, hB⟩],
        E ++ [⟨1, some 2, "migrate", .migrate 1 gkey⟩], 21⟩) := by
  have hckne : ck ≠ "" := ne_empty_of_parseBigInt hck
  have hfg : falsyStr (some ("guest_" ++ gkey)) = false :=
    falsyStr_of_ne (guest_append_ne_empty gkey)
  simp only [migrateRoute, hfg, Bool.false_eq_true, if_false, Option.getD,
    parseCustomerId_registered hckne hckg, findShop, findCustomer, findRow,
    Option.bind, hck, jsReplaceFirst_guest, findGuestWishlist,
    findCustomerWishlist, wishlistItems, filterRows, migrateItems, itemMatches,
    hpair, eq_self_iff_true, if_true, and_self, and_true, true_and, and_false,
    false_and, if_false, reduceCtorEq]
  simp [hpair]

/-- Claim C1 witness at concrete inputs. -/
theorem c1_migrate_dedup_witness :
    migrateRoute none
        ⟨[⟨1, "s1.example.com"⟩], [⟨2, 1, 7⟩],
         [⟨3, 1, none, "g1"⟩, ⟨4, 1, some 2, "cu"⟩],
         [⟨10, 3, 100, 200, "shoe"⟩, ⟨11, 3, 101, 201, "hat"⟩,
          ⟨12, 4, 100, 200, "shoe"⟩], [], 20⟩
        "s1.example.com" (some "7") (some "guest_g1") 0 =
      (⟨200, true, none,
        some ("Migrated " ++ toString 1 ++ " items to your account"),
        some true, some 1,
        some (generateStorefrontToken none "s1.example.com" (some "7") 3600 0)⟩,
       ⟨[⟨1, "s1.example.com"⟩], [⟨2, 1, 7⟩], [⟨4, 1, some 2, "cu"⟩],
        [⟨12, 4, 100, 200, "shoe"⟩, ⟨20, 4, 101, 201, "hat"⟩],
        [⟨1, some 2, "migrate", .migrate 1 "g1"⟩], 21⟩) := by
  have h := c1_migrate_dedup none "s1.example.com" "g1" "7" "cu" "shoe" "shoe" "hat"
    7 100 200 101 201 [] 0 (by decide) (by decide) (by decide)
  simpa using h

/-- Claim C2 counterexample: on the no-op path (guest wishlist absent) the
migrate response carries no `migratedCount` field at all -- the JS handler
answers only `success, message, migrated:false` -- so the operation does
not answer "a migrated count of zero" as the claim states. -/
theorem c2_counterexample :
    (migrateRoute none ⟨[⟨1, "s1.example.com"⟩], [⟨2, 1, 7⟩], [], [], [], 20⟩
        "s1.example.com" (some "7") (some "guest_g1") 0).1.migratedCount = none ∧
    (migrateRoute none ⟨[⟨1, "s1.example.com"⟩], [⟨2, 1, 7⟩], [], [], [], 20⟩
        "s1.example.com" (some "7") (some "guest_g1") 0).1.success = true ∧
    (migrateRoute none ⟨[⟨1, "s1.example.com"⟩], [⟨2, 1, 7⟩], [], [], [], 20⟩
        "s1.example.com" (some "7") (some "guest_g1") 0).1.migrated = some false ∧
    (none : Option Nat) ≠ some 0 := by
  refine ⟨rfl, rfl, rfl, by decide⟩

/-- Claim C2 (amended): migration is idempotent.  For every store in which
the registered caller and shop resolve and the guest wishlist is absent or
has zero items, migrate succeeds with `migrated = false` and no
`migratedCount` field (nothing is migrated) and performs no mutation;
consequently, calling migrate twice with the same guest key makes the
second call take this no-op path, and the guest wishlist no longer exists
after the first call. -/
theorem c2_migrate_idempotent (env : Option String) (db : DB)
    (dom ck gkey hdl : String) (k p v : Nat) (sr : Shop) (cust : Customer)
    (gtk : Option String) (E : List Event) (now now2 : Nat)
    (hck : parseBigInt ck = some k) (hckg : jsStartsWith ck "guest_" = false)
    (hgt : falsyStr gtk = false)
    (hshop : findShop db dom = some sr)
    (hcust : findCustomer db sr.id k = some cust)
    (hguest : findGuestWishlist db sr.id (jsReplaceFirst (gtk.getD "") "guest_") = none ∨
      ∃ gw, findGuestWishlist db sr.id (jsReplaceFirst (gtk.getD "") "guest_") = some gw ∧
        wishlistItems db gw.id = []) :
    migrateRoute env db dom (some ck) gtk now =
      (⟨200, true, none, some "No guest wishlist to migrate",
        some false, none, none⟩, db) ∧
    (let first := migrateRoute env
        ⟨[⟨1, dom⟩], [⟨2, 1, k⟩], [⟨3, 1, none, gkey⟩], [⟨10, 3, p, v, hdl⟩], E, 20⟩
        dom (some ck) (some ("guest_" ++ gkey)) now
     let second := migrateRoute env first.2 dom (some ck) (some ("guest_" ++ gkey)) now2
     first.1.migratedCount = some 1 ∧
     first.2.wishlists =
       [⟨20, 1, some 2, "customer_" ++ toString 2 ++ "_" ++ toString now⟩] ∧
     second = (⟨200, true, none, some "No guest wishlist to migrate",
       some false, none, none⟩, first.2)) := by
  have hckne : ck ≠ "" := ne_empty_of_parseBigInt hck
  have hfg : falsyStr (some ("guest_" ++ gkey)) = false :=
    falsyStr_of_ne (guest_append_ne_empty gkey)
  constructor
  · rcases hguest with hnone | ⟨gw, hgw, hitems⟩
    · simp only [migrateRoute, hgt, Bool.false_eq_true, if_false,
        parseCustomerId_registered hckne hckg, hshop, Option.bind, hck, hcust, hnone]
    · simp only [migrateRoute, hgt, Bool.false_eq_true, if_false,
        parseCustomerId_registered hckne hckg, hshop, Option.bind, hck, hcust, hgw,
        hitems, eq_self_iff_true, if_true]
  · have h1 : migrateRoute env
        ⟨[⟨1, dom⟩], [⟨2, 1, k⟩], [⟨3, 1, none, gkey⟩], [⟨10, 3, p, v, hdl⟩], E, 20⟩
        dom (some ck) (some ("guest_" ++ gkey)) now =
        (⟨200, true, none,
          some ("Migrated " ++ toString 1 ++ " items to your account"),
          some true, some 1,
          some (generateStorefrontToken env dom (some ck) 3600 now)⟩,
         ⟨[⟨1, dom⟩], [⟨2, 1, k⟩],
          [⟨20, 1, some 2, "customer_" ++ toString 2 ++ "_" ++ toString now⟩],
          [⟨21, 20, p, v, hdl⟩],
          E ++ [⟨1, some 2, "migrate", .migrate 1 gkey⟩], 22⟩) := by
      simp only [migrateRoute, hfg, Bool.false_eq_true, if_false, Option.getD,
        parseCustomerId_registered hckne hckg, findShop, findCustomer, findRow,
        Option.bind, hck, jsReplaceFirst_guest, findGuestWishlist,
        findCustomerWishlist, wishlistItems, filterRows, migrateItems, itemMatches,
        eq_self_iff_true, if_true, and_self, and_true, true_and, and_false,
        false_and, if_false, reduceCtorEq]
      simp
    have h2 : migrateRoute env
        ⟨[⟨1, dom⟩], [⟨2, 1, k⟩],
         [⟨20, 1, some 2, "customer_" ++ toString 2 ++ "_" ++ toString now⟩],
         [⟨21, 20, p, v, hdl⟩],
         E ++ [⟨1, some 2, "migrate", .migrate 1 gkey⟩], 22⟩
        dom (some ck) (some ("guest_" ++ gkey)) now2 =
        (⟨200, true, none, some "No guest wishlist to migrate",
          some false, none, none⟩,
         ⟨[⟨1, dom⟩], [⟨2, 1, k⟩],
          [⟨20, 1, some 2, "customer_" ++ toString 2 ++ "_" ++ toString now⟩],
          [⟨21, 20, p, v, hdl⟩],
          E ++ [⟨1, some 2, "migrate", .migrate 1 gkey⟩], 22⟩) := by
      simp only [migrateRoute, hfg, Bool.false_eq_true, if_false, Option.getD,
        parseCustomerId_registered hckne hckg, findShop, findCustomer, findRow,
        Option.bind, hck, jsReplaceFirst_guest, findGuestWishlist,
        eq_self_iff_true, if_true, and_self, and_true, true_and, and_false,
        false_and, if_false, reduceCtorEq]
    refine ⟨by rw [h1], by rw [h1], by rw [h1, h2]⟩

/-- Claim C2 witness at concrete inputs. -/
theorem c2_migrate_idempotent_witness :
    migrateRoute none ⟨[⟨1, "s1.example.com"⟩], [⟨2, 1, 7⟩], [], [], [], 20⟩
        "s1.example.com" (some "7") (some "guest_g1") 0 =
      (⟨200, true, none, some "No guest wishlist to migrate",
        some false, none, none⟩,
       ⟨[⟨1, "s1.example.com"⟩], [⟨2, 1, 7⟩], [], [], [], 20⟩) ∧
    (let first := migrateRoute none
        ⟨[⟨1, "s1.example.com"⟩], [⟨2, 1, 7⟩], [⟨3, 1, none, "g1"⟩],
         [⟨10, 3, 100, 200, "shoe"⟩], [], 20⟩
        "s1.example.com" (some "7") (some "guest_g1") 0
     let second := migrateRoute none first.2 "s1.example.com" (some "7")
        (some "guest_g1") 5
     first.1.migratedCount = some 1 ∧
     first.2.wishlists =
       [⟨20, 1, some 2, "customer_" ++ toString 2 ++ "_" ++ toString 0⟩] ∧
     second = (⟨200, true, none, some "No guest wishlist to migrate",
       some false, none, none⟩, first.2)) := by
  have h := c2_migrate_idempotent none
    ⟨[⟨1, "s1.example.com"⟩], [⟨2, 1, 7⟩], [], [], [], 20⟩
    "s1.example.com" "7" "g1" "shoe" 7 100 200 ⟨1, "s1.example.com"⟩ ⟨2, 1, 7⟩
    (some "guest_g1") [] 0 5
    (by decide) (by decide) (by decide) rfl rfl (Or.inl rfl)
  simpa using h

end WishlistApp
